import Mathlib

/-
Verification of the tantable repository: a generic paginated data-table
renderer (src/unnamed/part_000, the DataTable component) and a thin
data-fetching screen (src/src/App.tsx) that wires it to an HTTP endpoint.

The embedding is shallow: the rendered output of the component is modelled
as explicit data (lists of header cells, body rows, a pager record), and
callback invocations, navigations and page changes are modelled as emitted
Action values.  The TanStack table pipeline is embedded only to the depth
the component configures it (core row model, pagination row model with
manualPagination set, and no sorted row model installed).
-/

namespace Tantable

/-- Identifier of a row record: the generic constraint on the DataTable row
type is T extends \x7b id: string | number \x7d (src/unnamed/part_000 line 73). -/
inductive RowId where
  | str (s : String)
  | num (n : Int)
deriving DecidableEq, Repr

/-- String interpolation of a row id as JavaScript template literals do it:
a string id stays itself, a numeric id prints in decimal. -/
def RowId.render : RowId → String
  | .str s => s
  | .num n => toString n

/-- Row record: the required id plus the remaining domain fields, modelled
as an association list of field name to field value (the data model is a
semantic attribute bag; see spec section 3). -/
structure RowRecord where
  id : RowId
  fields : List (String × String)
deriving DecidableEq, Repr

instance : Inhabited RowRecord := ⟨⟨.num 0, []⟩⟩

/-- Column descriptor as the component consumes it: identifier, display
header and the accessor key used to read the field from a row
(src/src/App.tsx lines 23-64 construct columns of exactly this shape). -/
structure ColumnDef where
  colId : String
  header : String
  accessorKey : String
deriving DecidableEq, Repr

/-- Reading a cell value through the accessor key.  A record missing the
field renders as a blank cell (spec section 7: no schema validation,
malformed records may render as blank cells). -/
def accessField (row : RowRecord) (key : String) : String :=
  (row.fields.lookup key).getD ""

/-- Sorting state entry: a (column id, direction) pair, as in the TanStack
SortingState used at src/unnamed/part_000 line 92. -/
structure ColumnSort where
  colId : String
  desc : Bool
deriving DecidableEq, Repr

/-- Sorting state: ordered sequence of column sorts. -/
abbrev SortingState := List ColumnSort

/-- Observable effects of the component: callback invocations and the
route navigation.  Clicking a control emits one of these. -/
inductive Action where
  | navigate (url : String)
  | invokeEdit (record : RowRecord)
  | invokeDelete (record : RowRecord)
  | pageChange (page : Int)
  | invokeSearch (value : String)
deriving DecidableEq, Repr

/-! ## The TanStack row-model pipeline as configured by the component

The useReactTable call at src/unnamed/part_000 lines 158-180 passes
getCoreRowModel, getPaginationRowModel, manualPagination: true, the held
sorting state and an initial pagination state with the given pageSize.
It does NOT pass getSortedRowModel, so the sorting feature installs no
row transform: the sorted model defaults to the core model. -/

/-- Core row model: the rows exactly as supplied, in data order. -/
def getCoreRowModelFn (data : List RowRecord) : List RowRecord := data

/-- Sorted row model for this table.  No getSortedRowModel is passed to
useReactTable (src/unnamed/part_000 lines 158-180), so although the table
holds a sorting state, no sorting transform is installed and the sorted
model is the core model unchanged, whatever the sorting state says. -/
def sortedRowModelFn (sorting : SortingState) (rows : List RowRecord) :
    List RowRecord :=
  rows

/-- Pagination row model.  TanStack slices the rows client-side to the
current page unless manualPagination is set, in which case the supplied
rows are treated as already paginated and returned unsliced.  The
component sets manualPagination: true (src/unnamed/part_000 line 171). -/
def getPaginationRowModelFn (manualPagination : Bool)
    (pageIndex pageSize : Nat) (rows : List RowRecord) : List RowRecord :=
  if manualPagination then rows
  else (rows.drop (pageIndex * pageSize)).take pageSize

/-- Row model the body renders from: the pipeline with the configuration
fixed by the component (manual pagination, initial page index 0, no
sorting transform). -/
def rowModel (data : List RowRecord) (sorting : SortingState)
    (pageSize : Nat) : List RowRecord :=
  getPaginationRowModelFn true 0 pageSize
    (sortedRowModelFn sorting (getCoreRowModelFn data))

/-! ## Column augmentation -/

/-- A column of the rendered table: either one of the supplied column
descriptors or the synthetic actions column (id: actions, header: Actions,
src/unnamed/part_000 lines 101-153). -/
inductive RenderedColumn where
  | user (c : ColumnDef)
  | actions
deriving DecidableEq, Repr

/-- Column id of a rendered column (the actions column has id actions). -/
def RenderedColumn.cid : RenderedColumn → String
  | .user c => c.colId
  | .actions => "actions"

/-- Header label of a rendered column. -/
def RenderedColumn.headerLabel : RenderedColumn → String
  | .user c => c.header
  | .actions => "Actions"

/-- The tableColumns memo, src/unnamed/part_000 lines 95-155: when neither
an edit callback nor a delete callback is supplied the supplied columns are
returned unchanged; otherwise the actions column is appended after them.
The presence of the callbacks is modelled by the booleans onEdit and
onDelete; note the guard tests only these two, not editRoute. -/
def tableColumns (onEdit onDelete : Bool) (columns : List ColumnDef) :
    List RenderedColumn :=
  if !onEdit && !onDelete then columns.map .user
  else columns.map .user ++ [.actions]

/-! ## The actions cell: edit button and delete dialog -/

/-- Click behavior of the edit button, src/unnamed/part_000 lines 110-116:
with an edit route supplied it navigates to editRoute/row.original.id and
otherwise it invokes the edit callback with the full row record. -/
def editClickAction (editRoute : Option String) (row : RowRecord) : Action :=
  match editRoute with
  | some route => .navigate (route ++ "/" ++ row.id.render)
  | none => .invokeEdit row

/-- The edit button rendered in the actions cell; its onClick closure is
the action it emits when clicked. -/
structure EditButton where
  onClick : Action
deriving DecidableEq, Repr

/-- The delete confirmation dialog rendered in the actions cell,
src/unnamed/part_000 lines 126-149: the trigger button opens it, Cancel
closes it without effect, and only the affirmative Delete action invokes
the delete callback with the row record. -/
structure DeleteDialog where
  title : String
  description : String
  cancelLabel : String
  confirmLabel : String
  onConfirm : Action
deriving DecidableEq, Repr

/-- The delete dialog as rendered for a given row: onConfirm invokes the
delete callback with row.original (src/unnamed/part_000 line 142). -/
def renderDeleteDialog (row : RowRecord) : DeleteDialog :=
  { title := "Confirm Deletion"
    description :=
      "Are you sure you want to delete this item? This action cannot be undone."
    cancelLabel := "Cancel"
    confirmLabel := "Delete"
    onConfirm := .invokeDelete row }

/-- Content of one body cell: either accessor text or the actions cell
with its optional edit button and optional delete dialog. -/
inductive CellContent where
  | text (s : String)
  | actionsCell (edit : Option EditButton) (del : Option DeleteDialog)
deriving DecidableEq, Repr

/-- The actions cell for a row, src/unnamed/part_000 lines 104-152: the
edit button renders only when the edit callback is supplied and the delete
control only when the delete callback is supplied. -/
def renderActionsCell (onEdit onDelete : Bool) (editRoute : Option String)
    (row : RowRecord) : CellContent :=
  .actionsCell
    (if onEdit then some ⟨editClickAction editRoute row⟩ else none)
    (if onDelete then some (renderDeleteDialog row) else none)

/-! ## Header, body and pager rendering -/

/-- Per-column style lookup, src/unnamed/part_000 lines 204 and 236:
columnStyles[id] with a fallback to the empty class string. -/
def styleFor (columnStyles : List (String × String)) (cid : String) :
    String :=
  (columnStyles.lookup cid).getD ""

/-- A rendered header cell (TableHead, src/unnamed/part_000 lines
202-212).  The source attaches only a key and a className and renders the
header label; no click handler is attached and no sort-direction indicator
is rendered, which the two Option fields record as none. -/
structure HeaderCell where
  columnId : String
  className : String
  label : String
  onClick : Option Action
  sortIndicator : Option Bool
deriving DecidableEq, Repr

/-- The header row: one TableHead per rendered column, with the style
lookup, the header label, and no click handler or sort indicator
(src/unnamed/part_000 lines 198-216). -/
def renderHeader (columnStyles : List (String × String))
    (tcols : List RenderedColumn) : List HeaderCell :=
  tcols.map fun c =>
    { columnId := c.cid
      className := styleFor columnStyles c.cid
      label := c.headerLabel
      onClick := none
      sortIndicator := none }

/-- A rendered body cell (TableCell, src/unnamed/part_000 lines 234-242). -/
structure RenderedCell where
  columnId : String
  className : String
  content : CellContent
deriving DecidableEq, Repr

/-- A rendered body row: the underlying record (row.original) and one cell
per visible column. -/
structure RenderedRow where
  record : RowRecord
  cells : List RenderedCell
deriving DecidableEq, Repr

/-- Rendering one body row, src/unnamed/part_000 lines 229-244: one
TableCell per visible column, user columns through their accessor and the
actions column as the actions cell. -/
def renderRow (columnStyles : List (String × String))
    (onEdit onDelete : Bool) (editRoute : Option String)
    (tcols : List RenderedColumn) (row : RowRecord) : RenderedRow :=
  { record := row
    cells := tcols.map fun c =>
      { columnId := c.cid
        className := styleFor columnStyles c.cid
        content :=
          match c with
          | .user cd => .text (accessField row cd.accessorKey)
          | .actions => renderActionsCell onEdit onDelete editRoute row } }

/-- The three mutually exclusive bodies the TableBody can show,
src/unnamed/part_000 lines 217-256: the Loading placeholder spanning
colSpan columns, the No results placeholder spanning colSpan columns, or
the data rows. -/
inductive BodyRender where
  | loading (colSpan : Nat)
  | noResults (colSpan : Nat)
  | rows (rws : List RenderedRow)
deriving DecidableEq, Repr

/-- The TableBody, src/unnamed/part_000 lines 217-256: if isLoading, a
single Loading row with colSpan tableColumns.length; else if the row model
has nonzero length (JavaScript truthiness of rows.length), one rendered
row per model row; else a single No results row with the same colSpan. -/
def renderBody (data : List RowRecord) (columns : List ColumnDef)
    (onEdit onDelete : Bool) (editRoute : Option String)
    (columnStyles : List (String × String)) (sorting : SortingState)
    (pageSize : Nat) (isLoading : Bool) : BodyRender :=
  let tcols := tableColumns onEdit onDelete columns
  if isLoading then .loading tcols.length
  else if (rowModel data sorting pageSize).length ≠ 0 then
    .rows ((rowModel data sorting pageSize).map
      (renderRow columnStyles onEdit onDelete editRoute tcols))
  else .noResults tcols.length

/-- The pager, src/unnamed/part_000 lines 260-282: the Page X of Y label,
the Previous button disabled exactly on page 1 and emitting a page change
to currentPage - 1, and the Next button disabled exactly when currentPage
equals pageCount and emitting a page change to currentPage + 1. -/
structure Pager where
  label : String
  prevDisabled : Bool
  nextDisabled : Bool
  prevClick : Action
  nextClick : Action
deriving DecidableEq, Repr

/-- Rendering the pager from currentPage and pageCount. -/
def renderPager (currentPage pageCount : Int) : Pager :=
  { label := "Page " ++ toString currentPage ++ " of " ++ toString pageCount
    prevDisabled := currentPage == 1
    nextDisabled := currentPage == pageCount
    prevClick := .pageChange (currentPage - 1)
    nextClick := .pageChange (currentPage + 1) }

/-- The search input rendered above the table, src/unnamed/part_000 lines
185-194: placeholder Search..., displayed value is the supplied
searchValue, and the change handler passes the raw input value to the
search callback. -/
structure SearchInput where
  placeholder : String
  value : String
  onChange : String → Action

/-- The conditional search block: rendered exactly when a search callback
is supplied (the onSearch guard at src/unnamed/part_000 line 185). -/
def renderSearch (onSearch : Bool) (searchValue : String) :
    Option SearchInput :=
  if onSearch then
    some { placeholder := "Search..."
           value := searchValue
           onChange := fun v => .invokeSearch v }
  else none

/-! ## The delete confirmation state machine

The AlertDialog at src/unnamed/part_000 lines 126-149 interposes a modal
between the delete trigger and the destructive callback.  Its behavior is
the standard alert-dialog protocol: the trigger button opens the dialog;
while open, Cancel or dismissing closes it with no effect, and only the
affirmative action (the Delete button) runs its onClick, which invokes the
delete callback with the row record, and closes the dialog. -/

/-- Open or closed state of the delete confirmation dialog. -/
inductive DialogState where
  | closed
  | opened
deriving DecidableEq, Repr

/-- User interactions with the delete control and its dialog: clicking the
trigger (the trash button), clicking Cancel, clicking the affirmative
Delete action, or dismissing the dialog. -/
inductive DialogEvent where
  | clickTrigger
  | clickCancel
  | clickConfirm
  | dismiss
deriving DecidableEq, Repr

/-- One step of the dialog for the control rendered on a given row: the
new dialog state and the actions emitted.  Only the affirmative action in
the opened state emits anything, namely the onConfirm of the rendered
dialog; Cancel and dismissal close without emitting; events on a closed
dialog other than the trigger hit controls that do not exist and do
nothing. -/
def dialogStep (row : RowRecord) :
    DialogState → DialogEvent → DialogState × List Action
  | .closed, .clickTrigger => (.opened, [])
  | .closed, _ => (.closed, [])
  | .opened, .clickCancel => (.closed, [])
  | .opened, .dismiss => (.closed, [])
  | .opened, .clickConfirm => (.closed, [(renderDeleteDialog row).onConfirm])
  | .opened, .clickTrigger => (.opened, [])

/-- Running the dialog over a sequence of events: the final state and all
actions emitted, in order. -/
def dialogRun (row : RowRecord) (s : DialogState) :
    List DialogEvent → DialogState × List Action
  | [] => (s, [])
  | e :: es =>
    let (s1, as1) := dialogStep row s e
    let (s2, as2) := dialogRun row s1 es
    (s2, as1 ++ as2)

/-- Number of times the affirmative action is explicitly clicked while the
dialog is open over a sequence of events (a click on the affirmative
action is only possible while the dialog shows it). -/
def confirmClicks (s : DialogState) : List DialogEvent → Nat
  | [] => 0
  | e :: es =>
    (if s = .opened ∧ e = .clickConfirm then 1 else 0) +
      confirmClicks (dialogStep default s e).1 es

/-! ## The screen controller, src/src/App.tsx

The App component owns data, currentPage and isLoading state; a useEffect
with dependency [currentPage] (lines 70-85) runs fetchData once on mount
and once after each currentPage change. -/

/-- Controller state owned by App: the stored rows, the 1-indexed current
page and the loading flag (src/src/App.tsx lines 19-21). -/
structure AppState where
  data : List RowRecord
  currentPage : Int
  isLoading : Bool
deriving DecidableEq, Repr

/-- Request URL built at src/src/App.tsx line 74: the zero-indexed page
currentPage - 1 and the fixed page size 10 as path segments. -/
def requestUrl (currentPage : Int) : String :=
  "https://spicesinfo.in/auction-all/" ++ toString (currentPage - 1) ++ "/10"

/-- First half of fetchData (src/src/App.tsx lines 72-74): set the loading
flag true, then issue the request for the current page.  Returns the state
as it stands while the request is in flight and the requested URL. -/
def fetchStart (st : AppState) : AppState × String :=
  ({ st with isLoading := true }, requestUrl st.currentPage)

/-- Outcome of the awaited fetch and JSON parse: a parsed array of row
records, or an error (network failure or parse failure). -/
abbrev FetchOutcome := Except String (List RowRecord)

/-- Second half of fetchData (src/src/App.tsx lines 75-81): on success the
stored rows are replaced wholesale by the parsed array; on failure the
error is logged and the data left unchanged; the finally block clears the
loading flag in both cases.  Returns the resulting state and the log lines
emitted. -/
def fetchFinish (st : AppState) (outcome : FetchOutcome) :
    AppState × List String :=
  match outcome with
  | .ok rows => ({ st with data := rows, isLoading := false }, [])
  | .error e =>
    ({ st with isLoading := false }, ["Error fetching data: " ++ e])

/-- The whole fetchData effect for one run: the URL requested, the state
while loading, and the final state with the log. -/
def fetchEffect (st : AppState) (outcome : FetchOutcome) :
    String × AppState × AppState × List String :=
  let (st1, url) := fetchStart st
  let (st2, log) := fetchFinish st1 outcome
  (url, st1, st2, log)

/-- The useEffect with dependency [currentPage] (src/src/App.tsx lines
70-85) runs the fetch once on mount and once after each change of
currentPage: given the sequence of successive currentPage values (the
mount value first), the requests issued, one per value. -/
def effectRequests (pages : List Int) : List String :=
  pages.map requestUrl

/-! ## The assembled component -/

/-- The props accepted by DataTable (src/unnamed/part_000 lines 45-71).
Presence of the optional callbacks onEdit, onDelete and onSearch is
modelled by booleans; their invocations are the emitted Action values. -/
structure DataTableProps where
  data : List RowRecord
  columns : List ColumnDef
  pageCount : Int
  currentPage : Int
  pageSize : Nat
  onEdit : Bool
  onDelete : Bool
  editRoute : Option String
  isLoading : Bool
  searchValue : String
  onSearch : Bool
  columnStyles : List (String × String)

/-- Everything DataTable renders: the optional search input above the
table, the header row, the body, and the pager below the table
(src/unnamed/part_000 lines 183-284). -/
structure RenderedTable where
  search : Option SearchInput
  header : List HeaderCell
  body : BodyRender
  pager : Pager

/-- One render of the DataTable component from its props and the held
sorting state (src/unnamed/part_000 lines 73-285). -/
def renderDataTable (p : DataTableProps) (sorting : SortingState) :
    RenderedTable :=
  { search := renderSearch p.onSearch p.searchValue
    header := renderHeader p.columnStyles
      (tableColumns p.onEdit p.onDelete p.columns)
    body := renderBody p.data p.columns p.onEdit p.onDelete p.editRoute
      p.columnStyles sorting p.pageSize p.isLoading
    pager := renderPager p.currentPage p.pageCount }

/-- The records underlying the rendered body rows, in rendered order
(empty for the placeholder bodies). -/
def bodyRecords : BodyRender → List RowRecord
  | .rows rws => rws.map RenderedRow.record
  | _ => []

/-! ## Concrete sample inputs used in closed statements -/

/-- A sample column over the lots field, as in src/src/App.tsx lines
34-38. -/
def lotsColumn : ColumnDef := ⟨"lots", "Lots", "lots"⟩

/-- A sample row whose lots value is large. -/
def rowSeven : RowRecord := ⟨.num 7, [("lots", "9")]⟩

/-- A sample row whose lots value is small. -/
def rowEight : RowRecord := ⟨.num 8, [("lots", "2")]⟩

/-- Sample props: two rows that are out of order with respect to the lots
column, no callbacks, not loading. -/
def sampleProps : DataTableProps :=
  { data := [rowSeven, rowEight]
    columns := [lotsColumn]
    pageCount := 10
    currentPage := 1
    pageSize := 10
    onEdit := false
    onDelete := false
    editRoute := none
    isLoading := false
    searchValue := ""
    onSearch := false
    columnStyles := [] }

/-- A sorting state asking for an ascending sort on the lots column. -/
def lotsAscending : SortingState := [⟨"lots", false⟩]

/-! ## Claims -/

/-- C1, counterexample.  The claim states that clicking a sortable column
header toggles a client-side sort indicator and reorders the loaded page.
At the concrete props with rows (id 7, lots 9) and (id 8, lots 2) and the
single lots column: no rendered header cell carries a click handler, so a
click on a header reaches no handler and toggles nothing; no sort
indicator is rendered; and even under the sorting state asking for an
ascending sort on lots, the body rows stay in input order [7, 8] rather
than the sorted order [8, 7].  The source attaches no
getToggleSortingHandler to any TableHead (src/unnamed/part_000 lines
198-216) and passes no getSortedRowModel to useReactTable (lines
158-180). -/
theorem c1_counterexample :
    ((renderDataTable sampleProps lotsAscending).header.map
        HeaderCell.onClick = [none] ∧
      (renderDataTable sampleProps lotsAscending).header.map
        HeaderCell.sortIndicator = [none]) ∧
    bodyRecords (renderDataTable sampleProps lotsAscending).body
      = [rowSeven, rowEight] ∧
    bodyRecords (renderDataTable sampleProps lotsAscending).body
      ≠ [rowEight, rowSeven] := by
  decide

/-- C1, amended: sorting is inert in this component.  Headers are rendered
with no click handler and no sort indicator, and because no sorted row
model is installed the held sorting state never changes what the body
renders: every render under any sorting state equals the render under the
empty sorting state, the row model is the supplied data in input order,
and in particular sorting triggers no re-fetch and no reordering. -/
theorem c1_sorting_inert (p : DataTableProps) (sorting : SortingState) :
    (renderDataTable p sorting).header.map HeaderCell.onClick
      = List.replicate (tableColumns p.onEdit p.onDelete p.columns).length
          none ∧
    (renderDataTable p sorting).header.map HeaderCell.sortIndicator
      = List.replicate (tableColumns p.onEdit p.onDelete p.columns).length
          none ∧
    rowModel p.data sorting p.pageSize = p.data ∧
    (renderDataTable p sorting).body = (renderDataTable p []).body := by
  refine ⟨?_, ?_, rfl, rfl⟩ <;>
    simp [renderDataTable, renderHeader, List.map_map, Function.comp_def]

/-- C2, counterexample.  The claim states that the actions column is
appended exactly when an edit callback, a delete callback, or an edit
route is supplied.  At the concrete props with an edit route supplied but
neither callback, the guard at src/unnamed/part_000 line 96 tests only the
two callbacks, so the rendered column set is the supplied columns
unchanged and no actions column appears, refuting the claim. -/
theorem c2_counterexample :
    (renderDataTable
        { sampleProps with editRoute := some "/items/edit" }
        []).header.map HeaderCell.columnId = ["lots"] ∧
    (renderDataTable
        { sampleProps with editRoute := some "/items/edit" }
        []).header.map HeaderCell.columnId ≠ ["lots", "actions"] := by
  decide

/-- C2, amended: the rendered column set equals the supplied columns with
the actions column appended at the end exactly when an edit callback or a
delete callback is supplied; an edit route alone does not trigger the
actions column; otherwise the column set is the supplied columns
unchanged.  Independence from the edit route is visible in the statement:
tableColumns embeds the whole memo at src/unnamed/part_000 lines 95-155,
whose guard reads only the two callbacks, and takes no edit route. -/
theorem c2_actions_column (onEdit onDelete : Bool)
    (cols : List ColumnDef) :
    tableColumns onEdit onDelete cols =
      if onEdit || onDelete then
        cols.map RenderedColumn.user ++ [RenderedColumn.actions]
      else cols.map RenderedColumn.user := by
  cases onEdit <;> cases onDelete <;> simp [tableColumns]

/-- C3: for every row list and loading flag exactly one of three bodies
renders, in priority order: loading flag true gives the single Loading row
spanning all columns regardless of row data; otherwise an empty row list
gives the single No results row with the same span; otherwise one body row
per record, each with one cell per rendered column. -/
theorem c3_body_states (p : DataTableProps) (sorting : SortingState) :
    (renderDataTable p sorting).body =
      (if p.isLoading then
        BodyRender.loading (tableColumns p.onEdit p.onDelete p.columns).length
      else if p.data = [] then
        BodyRender.noResults
          (tableColumns p.onEdit p.onDelete p.columns).length
      else
        BodyRender.rows (p.data.map
          (renderRow p.columnStyles p.onEdit p.onDelete p.editRoute
            (tableColumns p.onEdit p.onDelete p.columns)))) ∧
    (p.data.map
        (renderRow p.columnStyles p.onEdit p.onDelete p.editRoute
          (tableColumns p.onEdit p.onDelete p.columns))).length
      = p.data.length ∧
    ∀ row : RowRecord,
      (renderRow p.columnStyles p.onEdit p.onDelete p.editRoute
          (tableColumns p.onEdit p.onDelete p.columns) row).cells.length
        = (tableColumns p.onEdit p.onDelete p.columns).length := by
  refine ⟨?_, by simp, fun row => by simp [renderRow]⟩
  cases h : p.isLoading <;>
    cases hd : p.data <;>
      simp [renderDataTable, renderBody, rowModel, getCoreRowModelFn,
        sortedRowModelFn, getPaginationRowModelFn, h, hd]

/-- C4: over every sequence of interactions with the delete control of a
row, the actions emitted are exactly one invocation of the delete callback
with that row record per explicit click of the affirmative action while
the confirmation dialog is open, and nothing else: clicking the trigger
alone, cancelling, or dismissing the dialog never invokes the delete
callback. -/
theorem c4_delete_confirmation (row : RowRecord) (s : DialogState)
    (evs : List DialogEvent) :
    (dialogRun row s evs).2 =
      List.replicate (confirmClicks s evs) (Action.invokeDelete row) := by
  induction evs generalizing s with
  | nil => rfl
  | cons e es ih =>
    cases s <;> cases e <;>
      simp [dialogRun, dialogStep, confirmClicks, renderDeleteDialog, ih,
        Nat.one_add, List.replicate_succ]

/-- C5: the pager renders the label Page currentPage of pageCount, the
Previous control is disabled exactly when currentPage is 1 and emits a
page change to currentPage - 1, and the Next control is disabled exactly
when currentPage equals pageCount and emits a page change to
currentPage + 1; the emitted page numbers are not clamped. -/
theorem c5_pager (p : DataTableProps) (sorting : SortingState) :
    (renderDataTable p sorting).pager.label =
      "Page " ++ toString p.currentPage ++ " of " ++ toString p.pageCount ∧
    ((renderDataTable p sorting).pager.prevDisabled = true ↔
      p.currentPage = 1) ∧
    ((renderDataTable p sorting).pager.nextDisabled = true ↔
      p.currentPage = p.pageCount) ∧
    (renderDataTable p sorting).pager.prevClick =
      Action.pageChange (p.currentPage - 1) ∧
    (renderDataTable p sorting).pager.nextClick =
      Action.pageChange (p.currentPage + 1) := by
  refine ⟨rfl, ?_, ?_, rfl, rfl⟩ <;>
    simp [renderDataTable, renderPager]

/-- C6: for a row whose actions cell carries an edit control (an edit
callback is supplied), clicking edit with an edit route supplied navigates
to editRoute/rowId and invokes no edit callback even though the callback
is present; with no edit route supplied it invokes the edit callback with
the full row record. -/
theorem c6_edit_click (route : String) (row anyRec : RowRecord)
    (onDelete : Bool) :
    editClickAction (some route) row =
      Action.navigate (route ++ "/" ++ row.id.render) ∧
    editClickAction (some route) row ≠ Action.invokeEdit anyRec ∧
    editClickAction none row = Action.invokeEdit row ∧
    renderActionsCell true onDelete (some route) row =
      CellContent.actionsCell
        (some ⟨Action.navigate (route ++ "/" ++ row.id.render)⟩)
        (if onDelete then some (renderDeleteDialog row) else none) := by
  refine ⟨rfl, ?_, rfl, rfl⟩
  simp [editClickAction]

/-- C7: each run of the fetch effect requests exactly the URL built from
the zero-indexed page currentPage - 1 and the fixed page size 10, the
response is parsed as an array of row records, and on success the stored
row set is replaced wholesale by the parsed array whatever it held before;
the effect runs once per currentPage value, so the requests issued across
a sequence of currentPage values number one per value.  Concretely, page 1
requests path segment 0. -/
theorem c7_fetch_contract (st : AppState) (rows : List RowRecord)
    (pages : List Int) :
    (fetchStart st).2 =
      "https://spicesinfo.in/auction-all/" ++
        toString (st.currentPage - 1) ++ "/10" ∧
    (fetchFinish (fetchStart st).1 (.ok rows)).1.data = rows ∧
    (fetchFinish (fetchStart st).1 (.ok rows)).1.currentPage =
      st.currentPage ∧
    (effectRequests pages).length = pages.length ∧
    requestUrl 1 = "https://spicesinfo.in/auction-all/0/10" := by
  refine ⟨rfl, rfl, rfl, ?_, rfl⟩
  simp [effectRequests]

/-- C8: the fetch effect sets the loading flag true before the request and
false after it completes, on success and on failure alike; on failure one
error line is logged and the stored rows are left exactly as they were
before the request began. -/
theorem c8_loading_and_failure (st : AppState) (rows : List RowRecord)
    (e : String) :
    (fetchStart st).1.isLoading = true ∧
    (fetchFinish (fetchStart st).1 (.ok rows)).1.isLoading = false ∧
    (fetchFinish (fetchStart st).1 (.error e)).1.isLoading = false ∧
    (fetchFinish (fetchStart st).1 (.error e)).1.data = st.data ∧
    (fetchFinish (fetchStart st).1 (.error e)).2 =
      ["Error fetching data: " ++ e] := by
  exact ⟨rfl, rfl, rfl, rfl, rfl⟩

/-- C9: when a search callback is supplied the search input renders with
the placeholder Search..., displayed value equal to the supplied search
value, and a change handler that passes every raw input value straight to
the callback; when no search callback is supplied no search input
renders. -/
theorem c9_search (p : DataTableProps) :
    (p.onSearch = true →
      (renderDataTable p []).search =
        some ⟨"Search...", p.searchValue,
          fun v => Action.invokeSearch v⟩) ∧
    (p.onSearch = false → (renderDataTable p []).search = none) := by
  constructor <;> intro h <;>
    simp [renderDataTable, renderSearch, h]

/-- C9 witness: at concrete props with the search callback supplied and
search value abc, the input renders with value abc and raw pass-through
change handler; with the callback absent, nothing renders. -/
theorem c9_search_witness :
    (renderDataTable
        { sampleProps with onSearch := true, searchValue := "abc" }
        []).search =
      some ⟨"Search...", "abc", fun v => Action.invokeSearch v⟩ :=
  (c9_search { sampleProps with onSearch := true, searchValue := "abc" }).1
    rfl

/-- C10: with the loading flag false and a nonempty row list, the body is
exactly one rendered row per input record, and the records underlying the
rendered rows are the input list itself, in the same order, for every
sorting state: no render permutes, drops or duplicates the supplied
rows. -/
theorem c10_order_preserved (p : DataTableProps) (sorting : SortingState)
    (hl : p.isLoading = false) (hne : p.data ≠ []) :
    (renderDataTable p sorting).body =
      BodyRender.rows (p.data.map
        (renderRow p.columnStyles p.onEdit p.onDelete p.editRoute
          (tableColumns p.onEdit p.onDelete p.columns))) ∧
    bodyRecords (renderDataTable p sorting).body = p.data := by
  have hb : (renderDataTable p sorting).body =
      BodyRender.rows (p.data.map
        (renderRow p.columnStyles p.onEdit p.onDelete p.editRoute
          (tableColumns p.onEdit p.onDelete p.columns))) := by
    cases hd : p.data with
    | nil => exact absurd hd hne
    | cons r rs =>
      simp [renderDataTable, renderBody, rowModel, getCoreRowModelFn,
        sortedRowModelFn, getPaginationRowModelFn, hl, hd]
  refine ⟨hb, ?_⟩
  simp [hb, bodyRecords, List.map_map, Function.comp_def, renderRow]

/-- C10 witness: at the sample props, under the sorting state asking for
an ascending sort on lots, the body records are the input rows [7, 8] in
input order. -/
theorem c10_order_preserved_witness :
    bodyRecords (renderDataTable sampleProps lotsAscending).body =
      [rowSeven, rowEight] :=
  (c10_order_preserved sampleProps lotsAscending rfl (by decide)).2

end Tantable
